import Mathlib

/-!
# Verification of the simulated trading engine

Shallow embedding of the core trading components of the repository
(`trade_executor.py`, `portfolio_manager.py`, `risk_manager.py`,
`trading_strategy.py`) and proofs of the specification claims about them.

Modelling conventions:
* Python `float` arithmetic is embedded as exact rational arithmetic (`ℚ`).
* Python `dict`s keyed by symbol/date are embedded as association lists with
  first-match lookup and replace-on-insert semantics.
* `uuid` order identifiers are replaced by a `next_id : ℕ` counter; identifiers
  are only ever compared for equality.
* `datetime` timestamps, which no claim depends on, are dropped from records;
  calendar dates used by the risk manager's daily buckets are embedded as `ℕ`.
* pandas `NaN` values (rolling windows that are not yet full, `diff` at index 0)
  are embedded as `Option ℚ` with `none` for `NaN`; comparisons against `none`
  are `false`, matching IEEE comparisons against `NaN`.
-/

namespace Bot

/-! ## Association-list helpers (embedding of Python `dict`) -/

/-- First-match lookup, `d.get(k)`. -/
def lookupA {α : Type} (l : List (String × α)) (k : String) : Option α :=
  match l with
  | [] => none
  | (k', v) :: rest => if k' = k then some v else lookupA rest k

/-- `d.get(k, dflt)`. -/
def lookupD {α : Type} (l : List (String × α)) (k : String) (dflt : α) : α :=
  (lookupA l k).getD dflt

/-- `d[k] = v`: replace the binding if present, else append. -/
def insertA {α : Type} (l : List (String × α)) (k : String) (v : α) :
    List (String × α) :=
  match l with
  | [] => [(k, v)]
  | (k', v') :: rest =>
      if k' = k then (k, v) :: rest else (k', v') :: insertA rest k v

/-- `del d[k]`. -/
def eraseA {α : Type} (l : List (String × α)) (k : String) : List (String × α) :=
  match l with
  | [] => []
  | (k', v') :: rest => if k' = k then eraseA rest k else (k', v') :: eraseA rest k

/-- Integer-keyed variant of `lookupD` for the daily buckets of the risk
manager (`daily_trades.get(today, 0)`), with dates embedded as `ℕ`. -/
def lookupDayD {α : Type} (l : List (ℕ × α)) (k : ℕ) (dflt : α) : α :=
  match l with
  | [] => dflt
  | (k', v) :: rest => if k' = k then v else lookupDayD rest k dflt

/-! ## Configuration constants (`config.py`) -/

/-- `INITIAL_BALANCE = 10000.0` -/
def INITIAL_BALANCE : ℚ := 10000

/-- `MAX_POSITION_SIZE = 0.5` -/
def MAX_POSITION_SIZE : ℚ := 1/2

/-- `MIN_TRADE_AMOUNT = 10.0` -/
def MIN_TRADE_AMOUNT : ℚ := 10

/-- `STOP_LOSS_PCT = 2.0` -/
def STOP_LOSS_PCT : ℚ := 2

/-- `TAKE_PROFIT_PCT = 5.0` -/
def TAKE_PROFIT_PCT : ℚ := 5

/-- `MAX_DAILY_TRADES = 50` -/
def MAX_DAILY_TRADES : ℕ := 50

/-- `MAX_DAILY_LOSS_PCT = 10.0` -/
def MAX_DAILY_LOSS_PCT : ℚ := 10

/-- `BACKTEST_COMMISSION = 0.001` -/
def BACKTEST_COMMISSION : ℚ := 1/1000

/-- `BACKTEST_SLIPPAGE = 0.0005` -/
def BACKTEST_SLIPPAGE : ℚ := 1/2000

/-! ## Portfolio manager (`portfolio_manager.py`) -/

/-- A per-symbol position entry `{'quantity': float, 'avg_price': float}`. -/
structure PMPos where
  quantity : ℚ
  avg_price : ℚ
deriving DecidableEq, Repr

/-- A `trade_record` appended to `trade_history` (timestamp dropped). -/
structure PMTrade where
  symbol : String
  side : String
  quantity : ℚ
  price : ℚ
  total : ℚ
deriving DecidableEq, Repr

/-- State of `PortfolioManager` (`balance_history`, which no claim touches,
is omitted). -/
structure PortfolioManager where
  initial_balance : ℚ
  available_balance : ℚ
  positions : List (String × PMPos)
  trade_history : List PMTrade
deriving DecidableEq, Repr

namespace PortfolioManager

/-- `PortfolioManager.get_position`. -/
def get_position (pm : PortfolioManager) (symbol : String) : PMPos :=
  lookupD pm.positions symbol ⟨0, 0⟩

/-- `PortfolioManager.update_position`.  Returns the Python `bool` result
together with the post-state.  Note the source creates a zero entry for an
unknown symbol *before* checking the side, and in the insufficient-position
branch returns `False` before the trade record is appended. -/
def update_position (pm : PortfolioManager) (symbol side : String)
    (quantity price : ℚ) : Bool × PortfolioManager :=
  let pm :=
    if (lookupA pm.positions symbol).isNone then
      { pm with positions := insertA pm.positions symbol ⟨0, 0⟩ }
    else pm
  let position := lookupD pm.positions symbol ⟨0, 0⟩
  let record : PMTrade :=
    { symbol := symbol, side := side, quantity := quantity, price := price,
      total := quantity * price }
  if side = "BUY" then
    let total_cost := position.quantity * position.avg_price + quantity * price
    let total_quantity := position.quantity + quantity
    let position :=
      { quantity := total_quantity
        avg_price := if total_quantity > 0 then total_cost / total_quantity
                     else position.avg_price }
    let pm := { pm with
      positions := insertA pm.positions symbol position
      available_balance := pm.available_balance - quantity * price }
    (true, { pm with trade_history := pm.trade_history ++ [record] })
  else if side = "SELL" then
    if position.quantity ≥ quantity then
      let q := position.quantity - quantity
      let position :=
        { quantity := q
          avg_price := if q = 0 then 0 else position.avg_price }
      let pm := { pm with
        positions := insertA pm.positions symbol position
        available_balance := pm.available_balance + quantity * price }
      (true, { pm with trade_history := pm.trade_history ++ [record] })
    else
      (false, pm)
  else
    (true, { pm with trade_history := pm.trade_history ++ [record] })

end PortfolioManager

/-! ## Risk manager (`risk_manager.py`) -/

/-- A liquidation intent emitted by `check_position_risk` (in the source this
is the call into `_trigger_stop_loss` / `_trigger_take_profit`). -/
inductive RiskEvent where
  | stopLoss (symbol : String) (price : ℚ)
  | takeProfit (symbol : String) (price : ℚ)
deriving DecidableEq, Repr

/-- State of `RiskManager`.  `position_limits` is never read in the source and
is omitted.  `_check_position_limit` reads the module constant
`INITIAL_BALANCE` directly, so it is not a field here either. -/
structure RiskManager where
  daily_trades : List (ℕ × ℕ)
  daily_loss : List (ℕ × ℚ)
  stop_loss_orders : List (String × ℚ)
  take_profit_orders : List (String × ℚ)
  max_position_size : ℚ
  stop_loss_pct : ℚ
  take_profit_pct : ℚ
  max_daily_trades : ℕ
  max_daily_loss_pct : ℚ
deriving DecidableEq, Repr

namespace RiskManager

/-- `RiskManager.__init__` (percentage parameters divided by 100 as in the
source). -/
def init : RiskManager :=
  { daily_trades := []
    daily_loss := []
    stop_loss_orders := []
    take_profit_orders := []
    max_position_size := MAX_POSITION_SIZE
    stop_loss_pct := STOP_LOSS_PCT / 100
    take_profit_pct := TAKE_PROFIT_PCT / 100
    max_daily_trades := MAX_DAILY_TRADES
    max_daily_loss_pct := MAX_DAILY_LOSS_PCT / 100 }

/-- `RiskManager._check_position_limit`.  The source comment says it should
use the current total asset value but, "simplified", it compares against the
module constant `INITIAL_BALANCE`. -/
def check_position_limit (rm : RiskManager) (_symbol : String)
    (position_value : ℚ) : Bool :=
  let max_position_value := INITIAL_BALANCE * rm.max_position_size
  if position_value > max_position_value then false else true

/-- `RiskManager.can_trade`.  `datetime.now().date()` is passed in as `today`.
The optional `quantity`/`current_price` arguments follow Python truthiness:
the position-limit branch runs only when both are given and non-zero. -/
def can_trade (rm : RiskManager) (today : ℕ) (symbol side : String)
    (quantity current_price : Option ℚ) : Bool :=
  let daily_count := lookupDayD rm.daily_trades today 0
  if daily_count ≥ rm.max_daily_trades then false
  else
    let daily_loss := lookupDayD rm.daily_loss today 0
    if daily_loss ≥ rm.max_daily_loss_pct then false
    else
      match quantity, current_price with
      | some q, some p =>
          if side = "BUY" ∧ q ≠ 0 ∧ p ≠ 0 then
            if check_position_limit rm symbol (q * p) then true else false
          else true
      | _, _ => true

/-- `RiskManager.set_stop_loss`. -/
def set_stop_loss (rm : RiskManager) (symbol : String) (entry_price : ℚ)
    (side : String) : RiskManager :=
  let stop_price :=
    if side = "LONG" then entry_price * (1 - rm.stop_loss_pct)
    else entry_price * (1 + rm.stop_loss_pct)
  { rm with stop_loss_orders := insertA rm.stop_loss_orders symbol stop_price }

/-- `RiskManager.set_take_profit`. -/
def set_take_profit (rm : RiskManager) (symbol : String) (entry_price : ℚ)
    (side : String) : RiskManager :=
  let target_price :=
    if side = "LONG" then entry_price * (1 + rm.take_profit_pct)
    else entry_price * (1 - rm.take_profit_pct)
  { rm with take_profit_orders := insertA rm.take_profit_orders symbol target_price }

/-- `RiskManager._trigger_stop_loss`: emits the liquidation intent and removes
the armed stop. -/
def trigger_stop_loss (rm : RiskManager) (symbol : String) (current_price : ℚ) :
    List RiskEvent × RiskManager :=
  ([RiskEvent.stopLoss symbol current_price],
   { rm with stop_loss_orders := eraseA rm.stop_loss_orders symbol })

/-- `RiskManager._trigger_take_profit`. -/
def trigger_take_profit (rm : RiskManager) (symbol : String) (current_price : ℚ) :
    List RiskEvent × RiskManager :=
  ([RiskEvent.takeProfit symbol current_price],
   { rm with take_profit_orders := eraseA rm.take_profit_orders symbol })

/-- `RiskManager.check_position_risk`: on a price tick, fire the armed
stop-loss when `current_price ≤ stop_price`, then the armed take-profit when
`current_price ≥ target_price`. -/
def check_position_risk (rm : RiskManager) (symbol : String) (current_price : ℚ) :
    List RiskEvent × RiskManager :=
  let sl :=
    match lookupA rm.stop_loss_orders symbol with
    | some stop_price =>
        if current_price ≤ stop_price then
          trigger_stop_loss rm symbol current_price
        else ([], rm)
    | none => ([], rm)
  let tp :=
    match lookupA sl.2.take_profit_orders symbol with
    | some target_price =>
        if current_price ≥ target_price then
          trigger_take_profit sl.2 symbol current_price
        else ([], sl.2)
    | none => ([], sl.2)
  (sl.1 ++ tp.1, tp.2)

end RiskManager

/-! ## Order simulator / trade executor (`trade_executor.py`) -/

/-- `OrderSide`. -/
inductive OrderSide where
  | BUY
  | SELL
deriving DecidableEq, Repr

/-- `OrderType`. -/
inductive OrderType where
  | MARKET
  | LIMIT
  | STOP_LOSS
  | TAKE_PROFIT
deriving DecidableEq, Repr

/-- `OrderStatus`. -/
inductive OrderStatus where
  | PENDING
  | FILLED
  | CANCELLED
  | REJECTED
  | EXPIRED
deriving DecidableEq, Repr

/-- `Order` (uuid replaced by a counter id, timestamps and the `fills` list
dropped; `fills` only ever duplicates the global trade list). -/
structure Order where
  id : ℕ
  symbol : String
  side : OrderSide
  order_type : OrderType
  quantity : ℚ
  price : Option ℚ
  stop_price : Option ℚ
  filled_quantity : ℚ
  remaining_quantity : ℚ
  avg_fill_price : ℚ
  status : OrderStatus
  commission : ℚ
deriving DecidableEq, Repr

/-- `Order.__init__`. -/
def Order.mk' (id : ℕ) (symbol : String) (side : OrderSide)
    (order_type : OrderType) (quantity : ℚ) (price stop_price : Option ℚ) :
    Order :=
  { id := id, symbol := symbol, side := side, order_type := order_type
    quantity := quantity, price := price, stop_price := stop_price
    filled_quantity := 0, remaining_quantity := quantity, avg_fill_price := 0
    status := OrderStatus.PENDING, commission := 0 }

/-- `Trade` (uuid and timestamp dropped). `total = quantity * price` as set in
`Trade.__init__`. -/
structure Trade where
  order_id : ℕ
  symbol : String
  side : OrderSide
  quantity : ℚ
  price : ℚ
  total : ℚ
  commission : ℚ
deriving DecidableEq, Repr

/-- `Trade.__init__`. -/
def Trade.mk' (order_id : ℕ) (symbol : String) (side : OrderSide)
    (quantity price commission : ℚ) : Trade :=
  { order_id := order_id, symbol := symbol, side := side, quantity := quantity
    price := price, total := quantity * price, commission := commission }

/-- `Position` (the `last_update` timestamp is dropped). -/
structure Position where
  symbol : String
  quantity : ℚ
  avg_price : ℚ
  realized_pnl : ℚ
  unrealized_pnl : ℚ
  total_cost : ℚ
  total_commission : ℚ
deriving DecidableEq, Repr

namespace Position

/-- `Position.__init__`. -/
def init (symbol : String) : Position :=
  { symbol := symbol, quantity := 0, avg_price := 0, realized_pnl := 0
    unrealized_pnl := 0, total_cost := 0, total_commission := 0 }

/-- `Position.update_position`. -/
def update_position (pos : Position) (trade : Trade) : Position :=
  let pos :=
    match trade.side with
    | OrderSide.BUY =>
        let new_total_cost := pos.total_cost + trade.total
        let new_quantity := pos.quantity + trade.quantity
        { pos with
          avg_price := if new_quantity > 0 then new_total_cost / new_quantity
                       else pos.avg_price
          quantity := new_quantity
          total_cost := new_total_cost }
    | OrderSide.SELL =>
        if pos.quantity > 0 then
          let sell_cost := trade.quantity * pos.avg_price
          let realized := trade.total - sell_cost
          let pos := { pos with realized_pnl := pos.realized_pnl + realized }
          let q := pos.quantity - trade.quantity
          if q ≤ 0 then
            { pos with quantity := 0, total_cost := 0, avg_price := 0 }
          else
            { pos with quantity := q, total_cost := pos.total_cost - sell_cost }
        else pos
  { pos with total_commission := pos.total_commission + trade.commission }

/-- `Position.calculate_unrealized_pnl`. -/
def calculate_unrealized_pnl (pos : Position) (current_price : ℚ) : Position :=
  if pos.quantity > 0 ∧ current_price > 0 then
    { pos with unrealized_pnl := pos.quantity * current_price - pos.total_cost }
  else
    { pos with unrealized_pnl := 0 }

end Position

/-- Which branch of `TradeExecutor._risk_check` returned `False`.  In the
source all failures are a bare `return False` distinguished only by the log
message; the tag records which check fired. -/
inductive RiskError where
  | minTradeAmount
  | insufficientBalance
  | insufficientPosition
  | positionLimit
deriving DecidableEq, Repr

/-- State of `TradeExecutor`.  The orders dict (keyed by uuid, iterated in
insertion order) is embedded as a `List Order` plus the `next_id` counter. -/
structure TradeExecutor where
  initial_balance : ℚ
  available_balance : ℚ
  orders : List Order
  trades : List Trade
  positions : List (String × Position)
  current_prices : List (String × ℚ)
  max_position_size : ℚ
  commission_rate : ℚ
  slippage : ℚ
  total_trades : ℕ
  winning_trades : ℕ
  losing_trades : ℕ
  total_commission : ℚ
  next_id : ℕ
deriving DecidableEq, Repr

namespace TradeExecutor

/-- `TradeExecutor.__init__`. -/
def init (initial_balance : ℚ) : TradeExecutor :=
  { initial_balance := initial_balance
    available_balance := initial_balance
    orders := [], trades := [], positions := [], current_prices := []
    max_position_size := MAX_POSITION_SIZE
    commission_rate := BACKTEST_COMMISSION
    slippage := BACKTEST_SLIPPAGE
    total_trades := 0, winning_trades := 0, losing_trades := 0
    total_commission := 0, next_id := 0 }

/-- `TradeExecutor.get_position_value`. -/
def get_position_value (s : TradeExecutor) : ℚ :=
  s.positions.foldl
    (fun (acc : ℚ) (kv : String × Position) =>
      match lookupA s.current_prices kv.1 with
      | some price => if kv.2.quantity > 0 then acc + kv.2.quantity * price else acc
      | none => acc)
    0

/-- `TradeExecutor.get_total_value`. -/
def get_total_value (s : TradeExecutor) : ℚ :=
  s.available_balance + s.get_position_value

/-- `TradeExecutor._risk_check`, with `none` for `return True` and
`some e` tagging which check returned `False`.  Checks run in source order:
minimum trade amount, then balance (BUY) / held position (SELL), then the
maximum-position limit (BUY only). -/
def risk_check (s : TradeExecutor) (symbol : String) (side : OrderSide)
    (quantity price : ℚ) : Option RiskError :=
  let order_value := quantity * price
  if order_value < MIN_TRADE_AMOUNT then some RiskError.minTradeAmount
  else
    match side with
    | OrderSide.BUY =>
        let required_balance := order_value * (1 + s.commission_rate)
        if s.available_balance < required_balance then
          some RiskError.insufficientBalance
        else
          let position_limit := s.get_total_value * s.max_position_size
          if order_value > position_limit then some RiskError.positionLimit
          else none
    | OrderSide.SELL =>
        let available_qty :=
          match lookupA s.positions symbol with
          | some position => position.quantity
          | none => 0
        if available_qty < quantity then some RiskError.insufficientPosition
        else none

/-- `TradeExecutor._update_balance_and_position`. -/
def update_balance_and_position (s : TradeExecutor) (trade : Trade) :
    TradeExecutor :=
  let symbol := trade.symbol
  let s :=
    if (lookupA s.positions symbol).isNone then
      { s with positions := insertA s.positions symbol (Position.init symbol) }
    else s
  let position := lookupD s.positions symbol (Position.init symbol)
  let position := position.update_position trade
  let s := { s with positions := insertA s.positions symbol position }
  match trade.side with
  | OrderSide.BUY =>
      { s with available_balance :=
          s.available_balance - (trade.total + trade.commission) }
  | OrderSide.SELL =>
      let s := { s with available_balance :=
          s.available_balance + (trade.total - trade.commission) }
      if position.realized_pnl > 0 then
        { s with winning_trades := s.winning_trades + 1 }
      else
        { s with losing_trades := s.losing_trades + 1 }

/-- `TradeExecutor._execute_order`.  Applies slippage, computes commission,
marks the order FILLED, updates balance/position, and appends the trade.
The embedded semantics is the exception-free path of the source: nothing in
the body can raise, so the `except` branch (REJECTED) is unreachable. -/
def execute_order (s : TradeExecutor) (order : Order) (execution_price : ℚ) :
    TradeExecutor :=
  let execution_price :=
    match order.side with
    | OrderSide.BUY => execution_price * (1 + s.slippage)
    | OrderSide.SELL => execution_price * (1 - s.slippage)
  let trade_value := order.quantity * execution_price
  let commission := trade_value * s.commission_rate
  let trade := Trade.mk' order.id order.symbol order.side order.quantity
    execution_price commission
  let filled : Order :=
    { order with
      status := OrderStatus.FILLED
      filled_quantity := order.quantity
      remaining_quantity := 0
      avg_fill_price := execution_price
      commission := commission }
  let s := { s with
    orders := s.orders.map (fun (o : Order) => if o.id = order.id then filled else o) }
  let s := s.update_balance_and_position trade
  { s with
    trades := s.trades ++ [trade]
    total_trades := s.total_trades + 1
    total_commission := s.total_commission + commission }

/-- Fill eligibility of one pending order against a tick, from the loop body
of `TradeExecutor._check_pending_orders`: `some execution_price` when the
order should execute, `none` otherwise.  Python truthiness on
`order.stop_price` / `order.price` (`None` and `0.0` are falsy) is modelled
explicitly. -/
def fill_verdict (current_price : ℚ) (order : Order) : Option ℚ :=
  match order.order_type with
    | OrderType.LIMIT =>
        match order.price with
        | some limit =>
            if order.side = OrderSide.BUY ∧ current_price ≤ limit then some limit
            else if order.side = OrderSide.SELL ∧ current_price ≥ limit then
              some limit
            else none
        | none => none
    | OrderType.STOP_LOSS =>
        match order.stop_price with
        | some stop =>
            if stop ≠ 0 then
              if order.side = OrderSide.BUY ∧ current_price ≥ stop then
                some current_price
              else if order.side = OrderSide.SELL ∧ current_price ≤ stop then
                some current_price
              else none
            else none
        | none => none
    | OrderType.TAKE_PROFIT =>
        match order.price with
        | some target =>
            if target ≠ 0 then
              if order.side = OrderSide.BUY ∧ current_price ≤ target then
                some target
              else if order.side = OrderSide.SELL ∧ current_price ≥ target then
                some target
              else none
            else none
        | none => none
    | OrderType.MARKET => none

/-- One iteration of the loop body of `TradeExecutor._check_pending_orders`:
execute the order at the verdict price, if any. -/
def process_pending (current_price : ℚ) (s : TradeExecutor) (order : Order) :
    TradeExecutor :=
  match fill_verdict current_price order with
  | some execution_price => s.execute_order order execution_price
  | none => s

/-- `TradeExecutor._check_pending_orders`: snapshot the pending orders of the
symbol, then execute each eligible one in order. -/
def check_pending_orders (s : TradeExecutor) (symbol : String)
    (current_price : ℚ) : TradeExecutor :=
  let pending := s.orders.filter
    (fun o => o.status = OrderStatus.PENDING ∧ o.symbol = symbol)
  pending.foldl (process_pending current_price) s

/-- `TradeExecutor.update_price`: record the tick, recompute the symbol's
unrealized P&L, then scan pending orders. -/
def update_price (s : TradeExecutor) (symbol : String) (price : ℚ) :
    TradeExecutor :=
  let s := { s with current_prices := insertA s.current_prices symbol price }
  let s :=
    match lookupA s.positions symbol with
    | some position =>
        { s with positions :=
            insertA s.positions symbol (position.calculate_unrealized_pnl price) }
    | none => s
  s.check_pending_orders symbol price

/-- `TradeExecutor.place_order`: validate, resolve the price, risk-check,
create the PENDING order, and execute immediately if MARKET. -/
def place_order (s : TradeExecutor) (symbol : String) (side : OrderSide)
    (order_type : OrderType) (quantity : ℚ) (price stop_price : Option ℚ) :
    Option ℕ × TradeExecutor :=
  if quantity ≤ 0 then (none, s)
  else
    match lookupA s.current_prices symbol with
    | none => (none, s)
    | some current_price =>
        let price : Option ℚ :=
          if order_type = OrderType.MARKET then some current_price else price
        match price with
        | none => (none, s)
        | some price =>
            if (s.risk_check symbol side quantity price).isSome then (none, s)
            else
              let order := Order.mk' s.next_id symbol side order_type quantity
                (some price) stop_price
              let s := { s with orders := s.orders ++ [order]
                                next_id := s.next_id + 1 }
              let s :=
                if order_type = OrderType.MARKET then
                  s.execute_order order current_price
                else s
              (some order.id, s)

/-- `TradeExecutor.cancel_order`. -/
def cancel_order (s : TradeExecutor) (order_id : ℕ) : Bool × TradeExecutor :=
  match s.orders.find? (fun o => o.id = order_id) with
  | some order =>
      if order.status = OrderStatus.PENDING then
        let cancelled := { order with status := OrderStatus.CANCELLED }
        (true, { s with orders :=
            s.orders.map (fun o => if o.id = order_id then cancelled else o) })
      else (false, s)
  | none => (false, s)

end TradeExecutor

/-! ## Indicator/signal engine (`trading_strategy.py`)

A pandas `DataFrame` is embedded as its `close` column (the only OHLCV column
the strategies read; `validate_data`'s required-column check always passes for
frames produced by the data collector and is represented by the non-emptiness
test) together with the cached indicator columns that `RSIStrategy` and
`MACDStrategy` write back into the caller's frame.  Rolling windows that are
not yet full and `diff` at index 0 give `NaN`, embedded as `none`; following
IEEE semantics, every comparison against `NaN` is `false`. -/

/-- `TradingSignal` (timestamp and metadata dropped; no claim reads them). -/
structure TradingSignal where
  signal_type : String
  strength : ℚ
  price : ℚ
deriving DecidableEq, Repr

/-- The caller's candle frame: close prices plus cached indicator columns. -/
structure DataFrame where
  closes : List ℚ
  rsi : Option (List (Option ℚ))
  macd : Option (List ℚ)
  macd_signal : Option (List ℚ)
  macd_histogram : Option (List ℚ)
deriving DecidableEq, Repr

/-- Per-strategy mutable state shared by all variants (`signals_history`,
`last_signal` from `TradingStrategy.__init__`). -/
structure StratState where
  signals_history : List TradingSignal
  last_signal : Option TradingSignal
deriving DecidableEq, Repr

/-- `DualMAStrategy` additionally keeps `last_ma_cross`. -/
structure DualMAState where
  signals_history : List TradingSignal
  last_signal : Option TradingSignal
  last_ma_cross : Option String
deriving DecidableEq, Repr

/-- `TradingStrategy.add_signal` history update: append, then keep the last
1000 entries. -/
def add_signal_history (history : List TradingSignal) (signal : TradingSignal) :
    List TradingSignal :=
  let h := history ++ [signal]
  if h.length > 1000 then h.drop (h.length - 1000) else h

/-- `NaN`-aware `≤` (false whenever either side is `NaN`). -/
def oleB : Option ℚ → Option ℚ → Bool
  | some a, some b => a ≤ b
  | _, _ => false

/-- `NaN`-aware `<`. -/
def oltB : Option ℚ → Option ℚ → Bool
  | some a, some b => a < b
  | _, _ => false

/-- `NaN`-aware `≥`. -/
def ogeB (a b : Option ℚ) : Bool := oleB b a

/-- `NaN`-aware `>`. -/
def ogtB (a b : Option ℚ) : Bool := oltB b a

/-- `series.rolling(window=w).mean().iloc[i]`: the mean of the `w` entries
ending at index `i`, `NaN` (`none`) while the window is not yet full (and for
the degenerate window `w = 0`, which pandas rejects; the source wraps the
computation in `try/except` and would degrade to no signal). -/
def rollingMeanAt (w : ℕ) (xs : List ℚ) (i : ℕ) : Option ℚ :=
  if 1 ≤ w ∧ w ≤ i + 1 ∧ i < xs.length then
    some (((xs.drop (i + 1 - w)).take w).sum / (w : ℚ))
  else none

/-- The signal-producing core of `DualMAStrategy.generate_signal` after the
length guard: golden/death-cross detection on the last two samples. -/
def dualMA_signal_core (short_period long_period : ℕ) (signal_threshold : ℚ)
    (closes : List ℚ) : Option TradingSignal :=
  let n := closes.length
  let current_short := rollingMeanAt short_period closes (n - 1)
  let current_long := rollingMeanAt long_period closes (n - 1)
  let prev_short := if n > 1 then rollingMeanAt short_period closes (n - 2)
                    else current_short
  let prev_long := if n > 1 then rollingMeanAt long_period closes (n - 2)
                   else current_long
  let current_price := closes.getLastD 0
  let gap_marginal : Bool :=
    match current_short, current_long with
    | some a, some b => decide (|a - b| / b > signal_threshold / 100)
    | _, _ => false
  let strength : ℚ :=
    match current_short, current_long with
    | some a, some b => min (|a - b| / b * 10) 1
    | _, _ => 0
  if oleB prev_short prev_long ∧ ogtB current_short current_long ∧ gap_marginal
  then
    some { signal_type := "BUY", strength := strength, price := current_price }
  else if ogeB prev_short prev_long ∧ oltB current_short current_long ∧
      gap_marginal then
    some { signal_type := "SELL", strength := strength, price := current_price }
  else none

/-- `DualMAStrategy.generate_signal`: length guard, cross detection, state
update.  Returns the signal, the (untouched) frame, and the strategy state. -/
def dualMA_generate (short_period long_period : ℕ) (signal_threshold : ℚ)
    (data : DataFrame) (st : DualMAState) :
    Option TradingSignal × DataFrame × DualMAState :=
  if data.closes = [] ∨
      data.closes.length < max short_period long_period then
    (none, data, st)
  else
    match dualMA_signal_core short_period long_period signal_threshold
        data.closes with
    | some signal =>
        let st := { st with
          last_ma_cross :=
            some (if signal.signal_type = "BUY" then "golden" else "death") }
        (some signal,
         data,
         { st with signals_history := add_signal_history st.signals_history signal
                   last_signal := some signal })
    | none => (none, data, st)

/-- `prices.diff().iloc[i]` (`NaN` at index 0). -/
def diffAt (xs : List ℚ) (i : ℕ) : Option ℚ :=
  if 1 ≤ i ∧ i < xs.length then some (xs.getD i 0 - xs.getD (i - 1) 0)
  else none

/-- Rolling mean of the one-step gains `delta.where(delta > 0, 0)` — `NaN`
while the window is not full or touches the `NaN` at index 0. -/
def gainAvgAt (period : ℕ) (xs : List ℚ) (i : ℕ) : Option ℚ :=
  if 1 ≤ period ∧ period ≤ i ∧ i < xs.length then
    some ((((List.range period).map (fun j =>
      match diffAt xs (i - j) with
      | some d => if d > 0 then d else 0
      | none => 0)).sum) / (period : ℚ))
  else none

/-- Rolling mean of the one-step losses `(-delta.where(delta < 0, 0))`. -/
def lossAvgAt (period : ℕ) (xs : List ℚ) (i : ℕ) : Option ℚ :=
  if 1 ≤ period ∧ period ≤ i ∧ i < xs.length then
    some ((((List.range period).map (fun j =>
      match diffAt xs (i - j) with
      | some d => if d < 0 then -d else 0
      | none => 0)).sum) / (period : ℚ))
  else none

/-- `RSIStrategy._calculate_rsi` at one index: `100 - 100/(1 + gain/loss)`.
Division by a zero loss follows IEEE float semantics: `gain/0 = +∞` for a
positive gain, giving RSI `100`; `0/0 = NaN`, giving `NaN`. -/
def rsiAt (period : ℕ) (xs : List ℚ) (i : ℕ) : Option ℚ :=
  match gainAvgAt period xs i, lossAvgAt period xs i with
  | some g, some l =>
      if l = 0 then (if g = 0 then none else some 100)
      else some (100 - 100 / (1 + g / l))
  | _, _ => none

/-- `RSIStrategy._calculate_rsi`: the whole RSI column. -/
def calculate_rsi (period : ℕ) (xs : List ℚ) : List (Option ℚ) :=
  (List.range xs.length).map (rsiAt period xs)

/-- `column.iloc[-1]` on a possibly-`NaN` column. -/
def ilocLast (col : List (Option ℚ)) : Option ℚ :=
  col.getD (col.length - 1) none

/-- `column.iloc[-2]` on a possibly-`NaN` column. -/
def ilocPrev (col : List (Option ℚ)) : Option ℚ :=
  col.getD (col.length - 2) none

/-- The threshold-crossing core of `RSIStrategy.generate_signal` after the
guard and the column caching. -/
def rsi_signal_core (overbought oversold : ℚ) (closes : List ℚ)
    (col : List (Option ℚ)) : Option TradingSignal :=
  let current_rsi := ilocLast col
  let prev_rsi := if closes.length > 1 then ilocPrev col else current_rsi
  let current_price := closes.getLastD 0
  if ogeB prev_rsi (some oversold) ∧ oltB current_rsi (some oversold) then
    some { signal_type := "BUY"
           strength := min ((oversold - current_rsi.getD 0) / oversold) 1
           price := current_price }
  else if oleB prev_rsi (some overbought) ∧
      ogtB current_rsi (some overbought) then
    some { signal_type := "SELL"
           strength := min ((current_rsi.getD 0 - overbought) /
             (100 - overbought)) 1
           price := current_price }
  else none

/-- `RSIStrategy.generate_signal`: length guard, caching of the `rsi` column
into the caller's frame, threshold-crossing detection, state update. -/
def rsi_generate (period : ℕ) (overbought oversold : ℚ) (data : DataFrame)
    (st : StratState) : Option TradingSignal × DataFrame × StratState :=
  if data.closes = [] ∨ data.closes.length < period + 1 then (none, data, st)
  else
    let data :=
      if data.rsi.isNone then
        { data with rsi := some (calculate_rsi period data.closes) }
      else data
    match rsi_signal_core overbought oversold data.closes
        (data.rsi.getD []) with
    | some sig =>
        (some sig, data,
         { st with signals_history := add_signal_history st.signals_history sig
                   last_signal := some sig })
    | none => (none, data, st)

/-- `series.ewm(span=s).mean().iloc[t]` with pandas' default `adjust=True`:
the `(1-α)^i`-weighted average of the first `t+1` entries, `α = 2/(span+1)`. -/
def ewmAt (span : ℕ) (xs : List ℚ) (t : ℕ) : ℚ :=
  let β : ℚ := 1 - 2 / ((span : ℚ) + 1)
  (((List.range (t + 1)).map (fun i => β ^ i * xs.getD (t - i) 0)).sum) /
    (((List.range (t + 1)).map (fun i => β ^ i)).sum)

/-- `series.ewm(span=s).mean()` as a column. -/
def ewmList (span : ℕ) (xs : List ℚ) : List ℚ :=
  (List.range xs.length).map (ewmAt span xs)

/-- `MACDStrategy._calculate_macd`: MACD line, signal line, histogram. -/
def calculate_macd (fast_period slow_period signal_period : ℕ)
    (xs : List ℚ) : List ℚ × List ℚ × List ℚ :=
  let macd := List.zipWith (· - ·) (ewmList fast_period xs)
    (ewmList slow_period xs)
  let signal := ewmList signal_period macd
  let histogram := List.zipWith (· - ·) macd signal
  (macd, signal, histogram)

/-- `column.iloc[-1]` on a `NaN`-free column (ewm columns have no `NaN`). -/
def ilocLastQ (col : List ℚ) : ℚ := col.getD (col.length - 1) 0

/-- `column.iloc[-2]` on a `NaN`-free column. -/
def ilocPrevQ (col : List ℚ) : ℚ := col.getD (col.length - 2) 0

/-- The zero-crossing core of `MACDStrategy.generate_signal` after the guard
and the column caching.  A zero signal line makes `|histogram|/|signal|` an
IEEE `±∞` and the strength clips to 1; that corner is embedded with rational
division (`x/0 = 0`) and is not relied on by any theorem below. -/
def macd_signal_core (closes : List ℚ) (signal_col histogram : List ℚ) :
    Option TradingSignal :=
  let current_signal := ilocLastQ signal_col
  let current_histogram := ilocLastQ histogram
  let prev_histogram :=
    if closes.length > 1 then ilocPrevQ histogram else current_histogram
  let current_price := closes.getLastD 0
  if prev_histogram ≤ 0 ∧ current_histogram > 0 then
    some { signal_type := "BUY"
           strength := min (|current_histogram| / |current_signal| * 2) 1
           price := current_price }
  else if prev_histogram ≥ 0 ∧ current_histogram < 0 then
    some { signal_type := "SELL"
           strength := min (|current_histogram| / |current_signal| * 2) 1
           price := current_price }
  else none

/-- `MACDStrategy.generate_signal`: length guard, caching of the three MACD
columns into the caller's frame, zero-crossing detection, state update. -/
def macd_generate (fast_period slow_period signal_period : ℕ)
    (data : DataFrame) (st : StratState) :
    Option TradingSignal × DataFrame × StratState :=
  let min_periods := max slow_period signal_period + 1
  if data.closes = [] ∨ data.closes.length < min_periods then (none, data, st)
  else
    let data :=
      if data.macd.isNone then
        let cols := calculate_macd fast_period slow_period signal_period
          data.closes
        { data with macd := some cols.1, macd_signal := some cols.2.1
                    macd_histogram := some cols.2.2 }
      else data
    match macd_signal_core data.closes (data.macd_signal.getD [])
        (data.macd_histogram.getD []) with
    | some sig =>
        (some sig, data,
         { st with signals_history := add_signal_history st.signals_history sig
                   last_signal := some sig })
    | none => (none, data, st)

/-! ## Concrete states used by the claim theorems -/

/-- C1 scenario, step 0: executor with `initialBalance = 10000`, commission
rate `0.001`, and no slippage. -/
def c1_s0 : TradeExecutor := { TradeExecutor.init 10000 with slippage := 0 }

/-- C1 scenario, step 1: the market learns the price 50000. -/
def c1_s1 : TradeExecutor := c1_s0.update_price "BTCUSDT" 50000

/-- C1 scenario, step 2: MARKET BUY of 0.1 at 50000, filled immediately. -/
def c1_s2 : TradeExecutor :=
  (c1_s1.place_order "BTCUSDT" OrderSide.BUY OrderType.MARKET (1/10) none none).2

/-- C1 scenario, step 3: price tick to 60000. -/
def c1_s3 : TradeExecutor := c1_s2.update_price "BTCUSDT" 60000

/-- C1 scenario, step 4: MARKET SELL of the full 0.1 at 60000. -/
def c1_s4 : TradeExecutor :=
  (c1_s3.place_order "BTCUSDT" OrderSide.SELL OrderType.MARKET (1/10) none none).2

/-- C2 scenario, step 0: balance 10000, zero commission and slippage so the
arithmetic is plain; `MAX_POSITION_SIZE` is the configured 0.5. -/
def c2_s0 : TradeExecutor :=
  { TradeExecutor.init 10000 with slippage := 0, commission_rate := 0 }

/-- C2 scenario: at price 5000, submit three LIMIT BUY orders of 1 @ 4000
(each passes the submission-time risk check against the *untouched* balance of
10000), then tick to 4000 so all three fill. -/
def c2_s5 : TradeExecutor :=
  (((((c2_s0.update_price "BTCUSDT" 5000).place_order "BTCUSDT"
    OrderSide.BUY OrderType.LIMIT 1 (some 4000) none).2.place_order "BTCUSDT"
    OrderSide.BUY OrderType.LIMIT 1 (some 4000) none).2.place_order "BTCUSDT"
    OrderSide.BUY OrderType.LIMIT 1 (some 4000) none).2).update_price
    "BTCUSDT" 4000

/-- C2 witness state: zero slippage, one known price. -/
def c2_w : TradeExecutor :=
  { TradeExecutor.init 10000 with slippage := 0
                                  current_prices := [("BTCUSDT", 50000)] }

/-- C6: a fresh risk manager (configured limits, empty daily buckets). -/
def c6_rm : RiskManager := RiskManager.init

/-- C6: an executor whose current total equity is 4000 (all cash, no
positions) — much less than `INITIAL_BALANCE = 10000`. -/
def c6_executor : TradeExecutor := TradeExecutor.init 4000

/-- C8 scenario: zero commission, the configured slippage `0.0005`; a LIMIT
BUY of 1 @ 100 is pending, then the price ticks to 90 ≤ 100. -/
def c8_s3 : TradeExecutor :=
  ((({ TradeExecutor.init 10000 with
      commission_rate := 0 }).update_price "BTCUSDT" 120).place_order
    "BTCUSDT" OrderSide.BUY OrderType.LIMIT 1 (some 100) none).2.update_price
    "BTCUSDT" 90

/-- The FILLED version of an order as produced by `_execute_order`. -/
def filled_order (st : TradeExecutor) (o : Order) (ep : ℚ) : Order :=
  let execution_price :=
    match o.side with
    | OrderSide.BUY => ep * (1 + st.slippage)
    | OrderSide.SELL => ep * (1 - st.slippage)
  { o with
    status := OrderStatus.FILLED
    filled_quantity := o.quantity
    remaining_quantity := 0
    avg_fill_price := execution_price
    commission := o.quantity * execution_price * st.commission_rate }

/-- C8 witness order: a PENDING LIMIT BUY of 1 @ 100. -/
def c8_o : Order :=
  Order.mk' 0 "BTCUSDT" OrderSide.BUY OrderType.LIMIT 1 (some 100) none

/-- C8 witness state: the order book holds exactly that order. -/
def c8_w : TradeExecutor := { TradeExecutor.init 10000 with orders := [c8_o] }

/-- C9: a two-candle frame with no cached indicator columns. -/
def c9_df : DataFrame :=
  { closes := [1, 2], rsi := none, macd := none, macd_signal := none
    macd_histogram := none }

/-- C9: a fresh strategy state. -/
def c9_st : StratState := { signals_history := [], last_signal := none }

/-- C3: a fresh executor with no position in any symbol. -/
def c3_s : TradeExecutor := TradeExecutor.init 10000

/-! ## Association-list lemmas -/

theorem lookupA_insertA_self {α : Type} (l : List (String × α)) (k : String) (v : α) :
    lookupA (insertA l k v) k = some v := by
  induction l with
  | nil => simp [insertA, lookupA]
  | cons hd tl ih =>
      obtain ⟨k', v'⟩ := hd
      by_cases h : k' = k <;> simp [insertA, lookupA, h, ih]

theorem lookupA_eraseA_self {α : Type} (l : List (String × α)) (k : String) :
    lookupA (eraseA l k) k = none := by
  induction l with
  | nil => simp [eraseA, lookupA]
  | cons hd tl ih =>
      obtain ⟨k', v'⟩ := hd
      by_cases h : k' = k <;> simp [eraseA, lookupA, h, ih]

/-! ## Claim C1: the reference scenario -/

/-- C1, counterexample: in the reference scenario the code leaves
`realizedPnL = 1000`, not the claimed `994`: `Position.update_position` adds
`trade.total - quantity×avgPrice` to `realized_pnl` and does **not** subtract
the sell commission (which goes to `total_commission` instead). -/
theorem c1_realized_pnl_counterexample :
    (lookupA c1_s4.positions "BTCUSDT").map Position.realized_pnl = some 1000 ∧
    (lookupA c1_s4.positions "BTCUSDT").map Position.realized_pnl ≠ some 994 := by
  norm_num +decide [c1_s4, c1_s3, c1_s2, c1_s1, c1_s0, TradeExecutor.init,
    TradeExecutor.update_price, TradeExecutor.place_order,
    TradeExecutor.risk_check, TradeExecutor.get_total_value,
    TradeExecutor.get_position_value, TradeExecutor.execute_order,
    TradeExecutor.update_balance_and_position,
    TradeExecutor.check_pending_orders, TradeExecutor.process_pending,
    TradeExecutor.fill_verdict,
    Position.init, Position.update_position, Position.calculate_unrealized_pnl,
    Order.mk', Trade.mk', lookupA, lookupD, insertA,
    List.filter_cons, List.filter_nil, Bool.and_eq_true, decide_eq_true_eq,
    MIN_TRADE_AMOUNT, MAX_POSITION_SIZE, BACKTEST_COMMISSION]

/-- C1, amended: starting from balance 10000 with commission rate 0.001 and
no slippage, the BUY fill of 0.1 @ 50000 leaves `availableBalance = 4995` and
the position at `{quantity: 0.1, avgPrice: 50000}`; the tick to 60000 sets
`unrealizedPnL = 1000`; the SELL fill of 0.1 @ 60000 yields
`realizedPnL = 1000` (commission is accumulated separately:
`totalCommission = 11`) and `availableBalance = 10989`. -/
theorem c1_scenario_amended :
    c1_s2.available_balance = 4995 ∧
    (lookupA c1_s2.positions "BTCUSDT").map Position.quantity = some (1/10) ∧
    (lookupA c1_s2.positions "BTCUSDT").map Position.avg_price = some 50000 ∧
    (lookupA c1_s3.positions "BTCUSDT").map Position.unrealized_pnl =
      some 1000 ∧
    (lookupA c1_s4.positions "BTCUSDT").map Position.realized_pnl = some 1000 ∧
    (lookupA c1_s4.positions "BTCUSDT").map Position.total_commission =
      some 11 ∧
    c1_s4.available_balance = 10989 := by
  norm_num +decide [c1_s4, c1_s3, c1_s2, c1_s1, c1_s0, TradeExecutor.init,
    TradeExecutor.update_price, TradeExecutor.place_order,
    TradeExecutor.risk_check, TradeExecutor.get_total_value,
    TradeExecutor.get_position_value, TradeExecutor.execute_order,
    TradeExecutor.update_balance_and_position,
    TradeExecutor.check_pending_orders, TradeExecutor.process_pending,
    TradeExecutor.fill_verdict,
    Position.init, Position.update_position, Position.calculate_unrealized_pnl,
    Order.mk', Trade.mk', lookupA, lookupD, insertA,
    List.filter_cons, List.filter_nil, Bool.and_eq_true, decide_eq_true_eq,
    MIN_TRADE_AMOUNT, MAX_POSITION_SIZE, BACKTEST_COMMISSION]

/-! ## Claim C2: availableBalance ≥ 0 after every transition -/

/-- C2, counterexample: pending-order execution performs **no** balance check
at fill time (`_execute_order` only rejects when Python raises), so the third
fill drives `availableBalance` to −2000 while all three orders end FILLED —
none is REJECTED. -/
theorem c2_negative_balance_counterexample :
    c2_s5.available_balance = -2000 ∧
    c2_s5.available_balance < 0 ∧
    c2_s5.orders.map Order.status =
      [OrderStatus.FILLED, OrderStatus.FILLED, OrderStatus.FILLED] := by
  norm_num +decide [c2_s5, c2_s0, TradeExecutor.init,
    TradeExecutor.update_price, TradeExecutor.place_order,
    TradeExecutor.risk_check, TradeExecutor.get_total_value,
    TradeExecutor.get_position_value, TradeExecutor.execute_order,
    TradeExecutor.update_balance_and_position,
    TradeExecutor.check_pending_orders, TradeExecutor.process_pending,
    TradeExecutor.fill_verdict,
    Position.init, Position.update_position, Position.calculate_unrealized_pnl,
    Order.mk', Trade.mk', lookupA, lookupD, insertA,
    List.filter_cons, List.filter_nil, Bool.and_eq_true, decide_eq_true_eq,
    MIN_TRADE_AMOUNT, MAX_POSITION_SIZE]

/-- Balance change of `_execute_order` for a BUY: deduct
`notional × (1 + commission rate)` at the slipped price. -/
theorem execute_order_balance_buy (st : TradeExecutor) (o : Order) (ep : ℚ)
    (h : o.side = OrderSide.BUY) :
    (st.execute_order o ep).available_balance =
      st.available_balance -
        o.quantity * (ep * (1 + st.slippage)) * (1 + st.commission_rate) := by
  unfold TradeExecutor.execute_order TradeExecutor.update_balance_and_position
  simp only [h, Trade.mk']
  split_ifs <;> (dsimp only; ring)

/-- Balance change of `_execute_order` for a SELL: credit
`notional × (1 - commission rate)` at the slipped price. -/
theorem execute_order_balance_sell (st : TradeExecutor) (o : Order) (ep : ℚ)
    (h : o.side = OrderSide.SELL) :
    (st.execute_order o ep).available_balance =
      st.available_balance +
        o.quantity * (ep * (1 - st.slippage)) * (1 - st.commission_rate) := by
  unfold TradeExecutor.execute_order TradeExecutor.update_balance_and_position
  simp only [h, Trade.mk']
  split_ifs <;> (dsimp only; ring)

/-- A BUY that passes `_risk_check` satisfies the submission-time balance
bound. -/
theorem risk_check_buy_none (s : TradeExecutor) (symbol : String)
    (quantity pr : ℚ)
    (h : s.risk_check symbol OrderSide.BUY quantity pr = none) :
    quantity * pr * (1 + s.commission_rate) ≤ s.available_balance := by
  unfold TradeExecutor.risk_check at h
  dsimp only at h
  split_ifs at h with h1 h2 h3
  linarith [not_lt.mp h2]

/-- C2, amended: the balance check runs only at submission time.  With zero
slippage, `place_order` (validation, risk check, immediate MARKET fill
included) preserves `availableBalance ≥ 0`: a MARKET BUY that would overdraw
is rejected by the submission-time check.  The unamended claim fails because
pending-order fills re-check nothing (`c2_negative_balance_counterexample`):
a fill that overdraws still transitions to FILLED, never REJECTED. -/
theorem c2_place_order_balance_nonneg (s : TradeExecutor) (symbol : String)
    (side : OrderSide) (order_type : OrderType) (quantity : ℚ)
    (price stop_price : Option ℚ)
    (hslip : s.slippage = 0)
    (hc1 : s.commission_rate ≤ 1) (hb : 0 ≤ s.available_balance)
    (hp : ∀ sym pr, lookupA s.current_prices sym = some pr → 0 ≤ pr) :
    0 ≤ (s.place_order symbol side order_type quantity price
      stop_price).2.available_balance := by
  unfold TradeExecutor.place_order
  split_ifs with h1 hmkt
  · exact hb
  · rcases hcp : lookupA s.current_prices symbol with _ | cp
    · exact hb
    · have hcp0 : 0 ≤ cp := hp symbol cp hcp
      have hq : 0 < quantity := not_le.mp h1
      rcases hrc : s.risk_check symbol side quantity cp with _ | err
      · simp only [hrc, Option.isSome_none, Bool.false_eq_true, if_false]
        cases side with
        | BUY =>
            rw [execute_order_balance_buy _ _ _ rfl]
            have hbound := risk_check_buy_none s symbol quantity cp hrc
            simp only [Order.mk', hslip]
            nlinarith [hbound]
        | SELL =>
            rw [execute_order_balance_sell _ _ _ rfl]
            simp only [Order.mk', hslip]
            have hterm : (0:ℚ) ≤
                quantity * (cp * (1 - 0)) * (1 - s.commission_rate) := by
              apply mul_nonneg
              · apply mul_nonneg (le_of_lt hq)
                linarith
              · linarith
            linarith
      · simp [hrc]
        exact hb
  · rcases hcp : lookupA s.current_prices symbol with _ | cp
    · exact hb
    · rcases price with _ | p0
      · exact hb
      · rcases hrc : s.risk_check symbol side quantity p0 with _ | err
        · simp [hrc]
          exact hb
        · simp [hrc]
          exact hb

/-- C2, witness: a MARKET BUY of 0.1 at 50000 from balance 10000 leaves the
balance non-negative. -/
theorem c2_place_order_balance_nonneg_witness :
    0 ≤ (c2_w.place_order "BTCUSDT" OrderSide.BUY OrderType.MARKET (1/10)
      none none).2.available_balance :=
  c2_place_order_balance_nonneg c2_w "BTCUSDT" OrderSide.BUY OrderType.MARKET
    (1/10) none none rfl
    (by norm_num [c2_w, TradeExecutor.init, BACKTEST_COMMISSION])
    (by norm_num [c2_w, TradeExecutor.init])
    (by
      intro sym p h
      simp only [c2_w, TradeExecutor.init, lookupA] at h
      split_ifs at h with hsym
      cases h
      norm_num)

/-! ## Claim C5: insufficient history yields no signal -/

/-- `NaN`-aware `≤` is false against a left `NaN`. -/
theorem oleB_none_left (x : Option ℚ) : oleB none x = false := by
  cases x <;> rfl

/-- `NaN`-aware `≤` is false against a right `NaN`. -/
theorem oleB_none_right (x : Option ℚ) : oleB x none = false := by
  cases x <;> rfl

/-- At the shortest length that passes the `DualMAStrategy` guard
(`len = max(short, long)`), the cross detection still yields no signal: the
previous value of the longer moving average is `NaN` (and at length 1, with
`prev = curr`, the strict-cross test is self-contradictory). -/
theorem dualMA_core_none (sp lp : ℕ) (th : ℚ) (closes : List ℚ)
    (hne : closes ≠ []) (hn : closes.length = max sp lp) :
    dualMA_signal_core sp lp th closes = none := by
  have h1 : 1 ≤ closes.length := List.length_pos.mpr hne
  unfold dualMA_signal_core
  by_cases hgt : closes.length > 1
  · by_cases hsl : sp ≤ lp
    · have hprevL : rollingMeanAt lp closes (closes.length - 2) = none := by
        unfold rollingMeanAt
        rw [if_neg]
        push_neg
        intro _ h2
        omega
      simp [hgt, hprevL, oleB_none_right, oleB_none_left, ogeB]
    · have hprevS : rollingMeanAt sp closes (closes.length - 2) = none := by
        unfold rollingMeanAt
        rw [if_neg]
        push_neg
        intro _ h2
        omega
      simp [hgt, hprevS, oleB_none_right, oleB_none_left, ogeB]
  · have hn1 : closes.length = 1 := by omega
    have hcases : (sp = 1 ∧ lp = 1) ∨ (sp = 1 ∧ lp = 0) ∨
        (sp = 0 ∧ lp = 1) := by omega
    rcases hcases with ⟨hs, hl⟩ | ⟨hs, hl⟩ | ⟨hs, hl⟩
    · subst hs hl
      simp [hn1, rollingMeanAt, oleB, ogtB, oltB, ogeB, lt_irrefl]
    · subst hs hl
      simp [hn1, rollingMeanAt, oleB_none_right, oleB_none_left, ogeB]
    · subst hs hl
      simp [hn1, rollingMeanAt, oleB_none_right, oleB_none_left, ogeB]

/-- C5, confirmed: every variant produces no signal (and no error) on a candle
series shorter than `max(periods used) + 1`: DualMA for any series shorter
than `max(short, long) + 1` (its guard tests only `max(short, long)`, but at
the boundary length the `NaN` in the previous long-window mean blocks both
cross conditions), RSI for any series shorter than `period + 1`, and MACD —
whose periods satisfy `fast ≤ slow`, as in the configuration 12/26/9 — for
any series shorter than `max(fast, slow, signal) + 1`. -/
theorem c5_insufficient_history_no_signal :
    (∀ (sp lp : ℕ) (th : ℚ) (data : DataFrame) (st : DualMAState),
      data.closes.length < max sp lp + 1 →
      (dualMA_generate sp lp th data st).1 = none) ∧
    (∀ (period : ℕ) (ob os : ℚ) (data : DataFrame) (st : StratState),
      data.closes.length < period + 1 →
      (rsi_generate period ob os data st).1 = none) ∧
    (∀ (f sl sg : ℕ) (data : DataFrame) (st : StratState),
      f ≤ sl → data.closes.length < max (max f sl) sg + 1 →
      (macd_generate f sl sg data st).1 = none) := by
  refine ⟨?_, ?_, ?_⟩
  · intro sp lp th data st hlen
    unfold dualMA_generate
    by_cases hnil : data.closes = []
    · simp [hnil]
    · by_cases hlt : data.closes.length < max sp lp
      · simp [hnil, hlt]
      · have hn : data.closes.length = max sp lp := by
          have := List.length_pos.mpr hnil
          omega
        rw [if_neg (by simp [hnil, hlt])]
        rw [dualMA_core_none sp lp th data.closes hnil hn]
  · intro period ob os data st hlen
    unfold rsi_generate
    rw [if_pos (Or.inr hlen)]
  · intro f sl sg data st hfs hlen
    unfold macd_generate
    have hb : data.closes.length < max sl sg + 1 := by
      have hm : max (max f sl) sg = max sl sg := by
        rw [Nat.max_eq_right hfs]
      omega
    rw [if_pos (Or.inr hb)]

/-- C5, witness: the three configured variants (10/30, 14, 12/26/9) on a
three-candle series. -/
theorem c5_insufficient_history_no_signal_witness :
    (dualMA_generate 10 30 (1/10)
      ⟨[1, 2, 3], none, none, none, none⟩ ⟨[], none, none⟩).1 = none ∧
    (rsi_generate 14 70 30
      ⟨[1, 2, 3], none, none, none, none⟩ ⟨[], none⟩).1 = none ∧
    (macd_generate 12 26 9
      ⟨[1, 2, 3], none, none, none, none⟩ ⟨[], none⟩).1 = none :=
  ⟨c5_insufficient_history_no_signal.1 10 30 (1/10) _ _ (by decide),
   c5_insufficient_history_no_signal.2.1 14 70 30 _ _ (by decide),
   c5_insufficient_history_no_signal.2.2 12 26 9 _ _ (by decide) (by decide)⟩

/-! ## Claim C6: position-limit check vs current total equity -/

/-- C6, counterexample: with current total equity 4000 and
`maxPositionFraction = 0.5`, a BUY of notional 3000 exceeds
`0.5 × 4000 = 2000`, yet `RiskManager.can_trade` admits it:
`_check_position_limit` compares the notional against the *constant*
`INITIAL_BALANCE × maxPositionFraction = 5000`, not against current equity. -/
theorem c6_equity_counterexample :
    c6_rm.can_trade 0 "BTCUSDT" "BUY" (some 1) (some 3000) = true ∧
    c6_executor.get_total_value = 4000 ∧
    (1 : ℚ) * 3000 >
      c6_rm.max_position_size * c6_executor.get_total_value := by
  refine ⟨?_, ?_, ?_⟩ <;>
    norm_num +decide [c6_rm, c6_executor, RiskManager.init,
      RiskManager.can_trade, RiskManager.check_position_limit,
      TradeExecutor.init, TradeExecutor.get_total_value,
      TradeExecutor.get_position_value, lookupDayD, lookupA,
      INITIAL_BALANCE, MAX_POSITION_SIZE, MAX_DAILY_TRADES,
      MAX_DAILY_LOSS_PCT, STOP_LOSS_PCT, TAKE_PROFIT_PCT]

/-! ## Claim C7: stop-loss triggers once and disarms -/

/-- Distinct `RiskEvent` constructors are never equal. -/
theorem riskEvent_stop_ne_take (a b : String) (x y : ℚ) :
    (RiskEvent.stopLoss a x = RiskEvent.takeProfit b y) ↔ False :=
  ⟨fun h => RiskEvent.noConfusion h, False.elim⟩

/-- The take-profit half of `check_position_risk` never emits a stop-loss
event. -/
theorem take_profit_step_no_stop (rm : RiskManager) (symbol : String)
    (p : ℚ) :
    ∀ q, RiskEvent.stopLoss symbol q ∉
      (match lookupA rm.take_profit_orders symbol with
       | some target_price =>
           if p ≥ target_price then rm.trigger_take_profit symbol p
           else ([], rm)
       | none => ([], rm)).1 := by
  intro q
  rcases htp : lookupA rm.take_profit_orders symbol with _ | target
  · simp
  · by_cases hge : p ≥ target
    · simp [hge, RiskManager.trigger_take_profit, riskEvent_stop_ne_take]
    · simp [hge]

/-- The take-profit half of `check_position_risk` never touches the armed
stop-loss map. -/
theorem take_profit_step_stop_orders (rm : RiskManager) (symbol : String)
    (p : ℚ) :
    (match lookupA rm.take_profit_orders symbol with
     | some target_price =>
         if p ≥ target_price then rm.trigger_take_profit symbol p
         else ([], rm)
     | none => ([], rm)).2.stop_loss_orders = rm.stop_loss_orders := by
  rcases htp : lookupA rm.take_profit_orders symbol with _ | target
  · simp
  · by_cases hge : p ≥ target
    · simp [hge, RiskManager.trigger_take_profit]
    · simp [hge]

/-- With no stop armed for the symbol, a tick emits no stop-loss event. -/
theorem check_no_stop_of_unarmed (rm : RiskManager) (symbol : String)
    (p : ℚ) (h : lookupA rm.stop_loss_orders symbol = none) :
    ∀ q, RiskEvent.stopLoss symbol q ∉
      (rm.check_position_risk symbol p).1 := by
  intro q
  unfold RiskManager.check_position_risk
  simp only [h]
  intro hmem
  simp only [List.nil_append] at hmem
  exact take_profit_step_no_stop rm symbol p q hmem

/-- C7, confirmed: arming a LONG stop-loss stores
`entryPrice × (1 − stopPct)`; ticks strictly above the stop neither trigger
nor disarm it; the first tick at or below the stop emits the liquidation
intent and removes the armed stop; and from the resulting state no tick (at
any price) emits a stop-loss for the symbol until it is re-armed. -/
theorem c7_stop_loss_once (rm : RiskManager) (symbol : String)
    (entry_price tick : ℚ)
    (htick : tick ≤ entry_price * (1 - rm.stop_loss_pct)) :
    lookupA (rm.set_stop_loss symbol entry_price "LONG").stop_loss_orders
        symbol = some (entry_price * (1 - rm.stop_loss_pct)) ∧
    (∀ p', p' > entry_price * (1 - rm.stop_loss_pct) →
      (∀ q, RiskEvent.stopLoss symbol q ∉
        ((rm.set_stop_loss symbol entry_price "LONG").check_position_risk
          symbol p').1) ∧
      lookupA ((rm.set_stop_loss symbol entry_price
          "LONG").check_position_risk symbol p').2.stop_loss_orders symbol =
        some (entry_price * (1 - rm.stop_loss_pct))) ∧
    RiskEvent.stopLoss symbol tick ∈
      ((rm.set_stop_loss symbol entry_price "LONG").check_position_risk
        symbol tick).1 ∧
    lookupA ((rm.set_stop_loss symbol entry_price "LONG").check_position_risk
        symbol tick).2.stop_loss_orders symbol = none ∧
    (∀ p'' q, RiskEvent.stopLoss symbol q ∉
      ((((rm.set_stop_loss symbol entry_price "LONG").check_position_risk
        symbol tick).2).check_position_risk symbol p'').1) := by
  set armed := rm.set_stop_loss symbol entry_price "LONG" with harmdef
  have harm : lookupA armed.stop_loss_orders symbol =
      some (entry_price * (1 - rm.stop_loss_pct)) := by
    rw [harmdef]
    unfold RiskManager.set_stop_loss
    rw [if_pos rfl]
    exact lookupA_insertA_self _ _ _
  refine ⟨harm, ?_, ?_, ?_, ?_⟩
  · intro p' hp'
    constructor
    · intro q
      unfold RiskManager.check_position_risk
      simp only [harm]
      rw [if_neg (by linarith)]
      intro hmem
      simp only [List.nil_append] at hmem
      exact take_profit_step_no_stop armed symbol p' q hmem
    · unfold RiskManager.check_position_risk
      simp only [harm]
      rw [if_neg (by linarith)]
      rw [take_profit_step_stop_orders armed symbol p']
      exact harm
  · unfold RiskManager.check_position_risk
    simp only [harm]
    rw [if_pos htick]
    simp [RiskManager.trigger_stop_loss]
  · unfold RiskManager.check_position_risk
    simp only [harm]
    rw [if_pos htick]
    rw [take_profit_step_stop_orders]
    simp only [RiskManager.trigger_stop_loss]
    exact lookupA_eraseA_self _ _
  · intro p'' q
    apply check_no_stop_of_unarmed
    unfold RiskManager.check_position_risk
    simp only [harm]
    rw [if_pos htick]
    rw [take_profit_step_stop_orders]
    simp only [RiskManager.trigger_stop_loss]
    exact lookupA_eraseA_self _ _

/-- C7, witness: the configured risk manager (2% stop), entry 100, stop 98,
triggering tick 97. -/
theorem c7_stop_loss_once_witness :
    RiskEvent.stopLoss "BTCUSDT" 97 ∈
      ((RiskManager.init.set_stop_loss "BTCUSDT" 100
        "LONG").check_position_risk "BTCUSDT" 97).1 ∧
    lookupA ((RiskManager.init.set_stop_loss "BTCUSDT" 100
        "LONG").check_position_risk "BTCUSDT"
        97).2.stop_loss_orders "BTCUSDT" = none :=
  have h := c7_stop_loss_once RiskManager.init "BTCUSDT" 100 97
    (by norm_num [RiskManager.init, STOP_LOSS_PCT])
  ⟨h.2.2.1, h.2.2.2.1⟩

/-! ## Claim C8: LIMIT fills and the fill price -/

/-- C8, counterexample: the LIMIT BUY fills on the tick to 90, but
`_execute_order` applies slippage to the limit price, so
`avgFillPrice = 100 × (1 + 0.0005) = 100.05 ≠ 100`. -/
theorem c8_slippage_counterexample :
    c8_s3.orders.map (fun o => (o.status, o.avg_fill_price)) =
      [(OrderStatus.FILLED, 2001/20)] ∧
    (2001/20 : ℚ) ≠ 100 := by
  norm_num +decide [c8_s3, TradeExecutor.init,
    TradeExecutor.update_price, TradeExecutor.place_order,
    TradeExecutor.risk_check, TradeExecutor.get_total_value,
    TradeExecutor.get_position_value, TradeExecutor.execute_order,
    TradeExecutor.update_balance_and_position,
    TradeExecutor.check_pending_orders, TradeExecutor.process_pending,
    TradeExecutor.fill_verdict,
    Position.init, Position.update_position, Position.calculate_unrealized_pnl,
    Order.mk', Trade.mk', lookupA, lookupD, insertA,
    List.filter_cons, List.filter_nil, Bool.and_eq_true, decide_eq_true_eq,
    MIN_TRADE_AMOUNT, MAX_POSITION_SIZE, BACKTEST_SLIPPAGE]

/-- `_execute_order` replaces the order (by id) with its FILLED version and
touches no other order. -/
theorem execute_order_orders (st : TradeExecutor) (o : Order) (ep : ℚ) :
    (st.execute_order o ep).orders =
      st.orders.map (fun x => if x.id = o.id then filled_order st o ep else x) := by
  unfold TradeExecutor.execute_order TradeExecutor.update_balance_and_position
    filled_order
  rcases hside : o.side <;>
    simp only [hside] <;> split_ifs <;> rfl

/-- `_execute_order` does not change the slippage parameter. -/
theorem execute_order_slippage (st : TradeExecutor) (o : Order) (ep : ℚ) :
    (st.execute_order o ep).slippage = st.slippage := by
  unfold TradeExecutor.execute_order TradeExecutor.update_balance_and_position
  rcases hside : o.side <;> simp only [hside] <;> split_ifs <;> rfl

/-- `_execute_order` does not change the commission parameter. -/
theorem execute_order_commission_rate (st : TradeExecutor) (o : Order) (ep : ℚ) :
    (st.execute_order o ep).commission_rate = st.commission_rate := by
  unfold TradeExecutor.execute_order TradeExecutor.update_balance_and_position
  rcases hside : o.side <;> simp only [hside] <;> split_ifs <;> rfl

/-- Filling keeps the order id. -/
theorem filled_order_id (st : TradeExecutor) (o : Order) (ep : ℚ) :
    (filled_order st o ep).id = o.id := rfl

/-- One scan step either leaves the state alone or executes the scanned
order. -/
theorem process_pending_eq (p : ℚ) (st : TradeExecutor) (o : Order) :
    TradeExecutor.process_pending p st o = st ∨
    ∃ ep, TradeExecutor.process_pending p st o = st.execute_order o ep := by
  unfold TradeExecutor.process_pending
  rcases h : TradeExecutor.fill_verdict p o with _ | ep
  · exact Or.inl rfl
  · exact Or.inr ⟨ep, rfl⟩

/-- Replacing the order with id `j` does not change which order a search for
a different id `i` finds. -/
theorem find?_id_map_other (l : List Order) (f : Order) (i j : ℕ)
    (hne : j ≠ i) (hf : f.id = j) :
    (l.map (fun x => if x.id = j then f else x)).find? (fun x => x.id = i) =
      l.find? (fun x => x.id = i) := by
  induction l with
  | nil => rfl
  | cons hd tl ih =>
      by_cases h : hd.id = j
      · have hf1 : ¬(f.id = i) := by rw [hf]; exact hne
        simp only [List.map_cons, h, if_true, List.find?_cons]
        simp [hf1, hne, ih]
      · simp only [List.map_cons, h, if_false, List.find?_cons]
        by_cases h2 : hd.id = i
        · simp [h2]
        · simp [h2, ih]

/-- After replacing the order with id `j` by `f`, a search for `j` finds
`f`. -/
theorem find?_id_map_self (l : List Order) (f : Order) (j : ℕ)
    (hf : f.id = j) (hmem : ∃ x ∈ l, x.id = j) :
    (l.map (fun x => if x.id = j then f else x)).find? (fun x => x.id = j) =
      some f := by
  induction l with
  | nil =>
      rcases hmem with ⟨x, hx, _⟩
      cases hx
  | cons hd tl ih =>
      by_cases h : hd.id = j
      · simp only [List.map_cons, h, if_true, List.find?_cons]
        simp [hf]
      · simp only [List.map_cons, h, if_false, List.find?_cons]
        have htl : ∃ x ∈ tl, x.id = j := by
          rcases hmem with ⟨x, hx, hxj⟩
          rcases List.mem_cons.mp hx with rfl | hmem2
          · exact absurd hxj h
          · exact ⟨x, hmem2, hxj⟩
        simp [h, ih htl]

/-- A scan step over one order preserves the result of searching for any
other id. -/
theorem process_pending_find_other (p : ℚ) (st : TradeExecutor) (o : Order)
    (i : ℕ) (h : o.id ≠ i) :
    (TradeExecutor.process_pending p st o).orders.find? (fun x => x.id = i) =
      st.orders.find? (fun x => x.id = i) := by
  rcases process_pending_eq p st o with heq | ⟨ep, heq⟩
  · rw [heq]
  · rw [heq, execute_order_orders]
    exact find?_id_map_other _ _ _ _ h rfl

/-- A scan step preserves the ids of the order book. -/
theorem process_pending_map_id (p : ℚ) (st : TradeExecutor) (o : Order) :
    (TradeExecutor.process_pending p st o).orders.map Order.id =
      st.orders.map Order.id := by
  rcases process_pending_eq p st o with heq | ⟨ep, heq⟩
  · rw [heq]
  · rw [heq, execute_order_orders, List.map_map]
    congr 1
    funext x
    by_cases h : x.id = o.id
    · simp [Function.comp, h, filled_order_id]
    · simp [Function.comp, h]

/-- A scan step preserves the slippage parameter. -/
theorem process_pending_slippage (p : ℚ) (st : TradeExecutor) (o : Order) :
    (TradeExecutor.process_pending p st o).slippage = st.slippage := by
  rcases process_pending_eq p st o with heq | ⟨ep, heq⟩
  · rw [heq]
  · rw [heq, execute_order_slippage]

/-- A scan step preserves the commission parameter. -/
theorem process_pending_commission_rate (p : ℚ) (st : TradeExecutor)
    (o : Order) :
    (TradeExecutor.process_pending p st o).commission_rate =
      st.commission_rate := by
  rcases process_pending_eq p st o with heq | ⟨ep, heq⟩
  · rw [heq]
  · rw [heq, execute_order_commission_rate]

/-- The whole scan preserves the ids of the order book. -/
theorem foldl_process_map_id (p : ℚ) (l : List Order) (st : TradeExecutor) :
    ((l.foldl (TradeExecutor.process_pending p) st).orders).map Order.id =
      st.orders.map Order.id := by
  induction l generalizing st with
  | nil => rfl
  | cons hd tl ih => rw [List.foldl_cons, ih, process_pending_map_id]

/-- The whole scan preserves the slippage parameter. -/
theorem foldl_process_slippage (p : ℚ) (l : List Order) (st : TradeExecutor) :
    (l.foldl (TradeExecutor.process_pending p) st).slippage = st.slippage := by
  induction l generalizing st with
  | nil => rfl
  | cons hd tl ih => rw [List.foldl_cons, ih, process_pending_slippage]

/-- Scanning orders whose ids all differ from `i` does not change what a
search for `i` finds. -/
theorem foldl_process_find_other (p : ℚ) (l : List Order)
    (st : TradeExecutor) (i : ℕ) (h : ∀ o' ∈ l, o'.id ≠ i) :
    (l.foldl (TradeExecutor.process_pending p) st).orders.find?
        (fun x => x.id = i) =
      st.orders.find? (fun x => x.id = i) := by
  induction l generalizing st with
  | nil => rfl
  | cons hd tl ih =>
      rw [List.foldl_cons, ih _ (fun o' ho' => h o' (List.mem_cons_of_mem _ ho')),
        process_pending_find_other _ _ _ _ (h hd (List.mem_cons_self _ _))]

/-- The two sides are distinct. -/
theorem sell_eq_buy_iff : (OrderSide.SELL = OrderSide.BUY) ↔ False :=
  ⟨fun h => OrderSide.noConfusion h, False.elim⟩

/-- `update_price` is the pending-order scan run on a state with the same
order book and slippage (only prices and unrealized P&L were refreshed). -/
theorem update_price_as_scan (s : TradeExecutor) (symbol : String) (p : ℚ) :
    ∃ s' : TradeExecutor,
      s.update_price symbol p = s'.check_pending_orders symbol p ∧
      s'.orders = s.orders ∧ s'.slippage = s.slippage := by
  unfold TradeExecutor.update_price
  dsimp only
  rcases h : lookupA s.positions symbol with _ | pos
  · exact ⟨_, rfl, rfl, rfl⟩
  · exact ⟨_, rfl, rfl, rfl⟩

/-- C8, amended: a price tick at or below the limit fills every PENDING LIMIT
BUY order for the symbol — but at `avgFillPrice = limit × (1 + slippage)`, not
at the limit price itself; symmetrically a tick at or above the limit fills a
PENDING LIMIT SELL at `limit × (1 − slippage)`.  (Order ids are pairwise
distinct, as the uuid4 ids of the source are.) -/
theorem c8_limit_fill (s : TradeExecutor) (symbol : String) (o : Order)
    (tick limit : ℚ)
    (hmem : o ∈ s.orders) (hnd : (s.orders.map Order.id).Nodup)
    (hst : o.status = OrderStatus.PENDING) (hsym : o.symbol = symbol)
    (hty : o.order_type = OrderType.LIMIT) (hpr : o.price = some limit)
    (hcond : (o.side = OrderSide.BUY ∧ tick ≤ limit) ∨
             (o.side = OrderSide.SELL ∧ limit ≤ tick)) :
    ∃ o', (s.update_price symbol tick).orders.find?
        (fun x => x.id = o.id) = some o' ∧
      o'.status = OrderStatus.FILLED ∧
      o'.avg_fill_price =
        (if o.side = OrderSide.BUY then limit * (1 + s.slippage)
         else limit * (1 - s.slippage)) := by
  obtain ⟨s', hup, hord, hslip'⟩ := update_price_as_scan s symbol tick
  rw [hup]
  unfold TradeExecutor.check_pending_orders
  set pending := s'.orders.filter
    (fun x => x.status = OrderStatus.PENDING ∧ x.symbol = symbol) with hpend
  have hmemp : o ∈ pending := by
    rw [hpend, hord]
    exact List.mem_filter.mpr ⟨hmem, by simp [hst, hsym]⟩
  have hndp : (pending.map Order.id).Nodup := by
    have hsub : List.Sublist pending s'.orders := List.filter_sublist _
    have := (hsub.map Order.id).nodup
    rw [hord] at this
    exact this hnd
  obtain ⟨l1, l2, hsplit⟩ := List.append_of_mem hmemp
  have hl1ne : ∀ x ∈ l1, x.id ≠ o.id := by
    intro x hx hxid
    rw [hsplit, List.map_append, List.map_cons] at hndp
    rcases List.nodup_append.mp hndp with ⟨_, _, hdisj⟩
    exact hdisj (List.mem_map_of_mem Order.id hx)
      (by rw [hxid]; exact List.mem_cons_self _ _)
  have hl2ne : ∀ x ∈ l2, x.id ≠ o.id := by
    intro x hx hxid
    rw [hsplit, List.map_append, List.map_cons] at hndp
    rcases List.nodup_append.mp hndp with ⟨_, hcons, _⟩
    rcases List.nodup_cons.mp hcons with ⟨hnotin, _⟩
    exact hnotin (by rw [← hxid]; exact List.mem_map_of_mem Order.id hx)
  rw [hsplit, List.foldl_append, List.foldl_cons]
  set st₁ := l1.foldl (TradeExecutor.process_pending tick) s' with hst₁
  have hslip₁ : st₁.slippage = s.slippage := by
    rw [hst₁, foldl_process_slippage, hslip']
  have hv : TradeExecutor.fill_verdict tick o = some limit := by
    unfold TradeExecutor.fill_verdict
    rcases hcond with ⟨hside, hc⟩ | ⟨hside, hc⟩
    · simp [hty, hpr, hside, hc]
    · simp [hty, hpr, hside, hc, sell_eq_buy_iff]
  have hstep : TradeExecutor.process_pending tick st₁ o =
      st₁.execute_order o limit := by
    unfold TradeExecutor.process_pending
    rw [hv]
  rw [hstep]
  have hmem₁ : ∃ x ∈ st₁.orders, x.id = o.id := by
    have h0 : o.id ∈ s'.orders.map Order.id := by
      rw [hord]
      exact List.mem_map_of_mem Order.id hmem
    have h1 : o.id ∈ st₁.orders.map Order.id := by
      rw [hst₁, foldl_process_map_id]
      exact h0
    rcases List.mem_map.mp h1 with ⟨x, hx, hxid⟩
    exact ⟨x, hx, hxid⟩
  refine ⟨filled_order st₁ o limit, ?_, ?_, ?_⟩
  · rw [foldl_process_find_other tick l2 _ o.id hl2ne, execute_order_orders,
      find?_id_map_self st₁.orders (filled_order st₁ o limit) o.id rfl hmem₁]
  · rfl
  · rcases hcond with ⟨hside, _⟩ | ⟨hside, _⟩
    · rw [if_pos hside]
      simp [filled_order, hside, hslip₁]
    · rw [if_neg (by rw [hside]; exact fun h => OrderSide.noConfusion h)]
      simp [filled_order, hside, hslip₁]

/-- C8, witness: a tick to 90 fills the LIMIT BUY at
`100 × (1 + slippage)`. -/
theorem c8_limit_fill_witness :
    ∃ o', (c8_w.update_price "BTCUSDT" 90).orders.find?
        (fun x => x.id = c8_o.id) = some o' ∧
      o'.status = OrderStatus.FILLED ∧
      o'.avg_fill_price =
        (if c8_o.side = OrderSide.BUY then 100 * (1 + c8_w.slippage)
         else 100 * (1 - c8_w.slippage)) :=
  c8_limit_fill c8_w "BTCUSDT" c8_o 90 100
    (List.mem_singleton.mpr rfl) (List.nodup_singleton _)
    rfl rfl rfl rfl (Or.inl ⟨rfl, by norm_num⟩)

/-! ## Claim C9: generate_signal and the caller's frame -/

/-- C9, counterexample: `RSIStrategy.generate_signal` (period 1) on the
two-candle frame writes the computed `rsi` column back into the **caller's**
frame (`data['rsi'] = ...`), so the frame after the call differs from the
frame passed in, contradicting "the input candle series is unchanged". -/
theorem c9_frame_mutation_counterexample :
    (rsi_generate 1 70 30 c9_df c9_st).2.1 ≠ c9_df ∧
    (rsi_generate 1 70 30 c9_df c9_st).2.1.rsi = some [none, some 100] ∧
    c9_df.rsi = none := by
  norm_num +decide [rsi_generate, rsi_signal_core, c9_df, c9_st,
    calculate_rsi, rsiAt, gainAvgAt, lossAvgAt, diffAt, ilocLast, ilocPrev,
    ogeB, oleB, ogtB, oltB, List.range_succ, add_signal_history]

/-- C9, amended: each variant's `generate_signal` never changes the close
prices (the caller's OHLCV data): DualMA returns the frame untouched, while
RSI and MACD may cache computed indicator columns onto the caller's frame
(which is what refutes the unamended claim,
`c9_frame_mutation_counterexample`).  Calling the same variant again on the
returned frame produces the same signal, and the signal history stays within
its 1000-entry bound.  Mutation beyond the strategy's own state is impossible
by construction: each embedded `generate_signal` returns only the signal, the
frame, and its own state. -/
theorem c9_generate_signal_effects :
    (∀ (sp lp : ℕ) (th : ℚ) (data : DataFrame) (st : DualMAState),
      (dualMA_generate sp lp th data st).2.1 = data ∧
      (dualMA_generate sp lp th data
        ((dualMA_generate sp lp th data st).2.2)).1 =
        (dualMA_generate sp lp th data st).1) ∧
    (∀ (period : ℕ) (ob os : ℚ) (data : DataFrame) (st : StratState),
      (rsi_generate period ob os data st).2.1.closes = data.closes ∧
      (rsi_generate period ob os (rsi_generate period ob os data st).2.1
        ((rsi_generate period ob os data st).2.2)).1 =
        (rsi_generate period ob os data st).1) ∧
    (∀ (f sl sg : ℕ) (data : DataFrame) (st : StratState),
      (macd_generate f sl sg data st).2.1.closes = data.closes ∧
      (macd_generate f sl sg (macd_generate f sl sg data st).2.1
        ((macd_generate f sl sg data st).2.2)).1 =
        (macd_generate f sl sg data st).1) ∧
    (∀ (h : List TradingSignal) (sig : TradingSignal),
      h.length ≤ 1000 → (add_signal_history h sig).length ≤ 1000) := by
  refine ⟨?_, ?_, ?_, ?_⟩
  · intro sp lp th data st
    by_cases hg : data.closes = [] ∨ data.closes.length < max sp lp
    · have h1 : ∀ st' : DualMAState,
          dualMA_generate sp lp th data st' = (none, data, st') := by
        intro st'
        unfold dualMA_generate
        rw [if_pos hg]
      simp only [h1]
      exact ⟨trivial, trivial⟩
    · have h1 : ∀ st' : DualMAState,
          dualMA_generate sp lp th data st' =
            (match dualMA_signal_core sp lp th data.closes with
             | some signal =>
                 (some signal, data,
                  ⟨add_signal_history st'.signals_history signal, some signal,
                   some (if signal.signal_type = "BUY" then "golden"
                         else "death")⟩)
             | none => (none, data, st')) := by
        intro st'
        unfold dualMA_generate
        rw [if_neg hg]
      rcases hsig : dualMA_signal_core sp lp th data.closes with _ | sig
      · simp only [h1, hsig]
        exact ⟨trivial, trivial⟩
      · simp only [h1, hsig]
        exact ⟨trivial, trivial⟩
  · intro period ob os data st
    by_cases hg : data.closes = [] ∨ data.closes.length < period + 1
    · have h1 : ∀ st' : StratState,
          rsi_generate period ob os data st' = (none, data, st') := by
        intro st'
        unfold rsi_generate
        rw [if_pos hg]
      simp only [h1]
      exact ⟨trivial, trivial⟩
    · set data₁ := if data.rsi.isNone then
          { data with rsi := some (calculate_rsi period data.closes) }
        else data with hd₁
      have hcl : data₁.closes = data.closes := by
        rw [hd₁]
        rcases data.rsi <;> simp
      have hnn : data₁.rsi.isNone = false := by
        rw [hd₁]
        rcases hr : data.rsi <;> simp [hr]
      have hg₁ : ¬(data₁.closes = [] ∨ data₁.closes.length < period + 1) := by
        rw [hcl]
        exact hg
      have h1 : ∀ st' : StratState,
          rsi_generate period ob os data st' =
            (match rsi_signal_core ob os data₁.closes (data₁.rsi.getD []) with
             | some sig =>
                 (some sig, data₁,
                  ⟨add_signal_history st'.signals_history sig, some sig⟩)
             | none => (none, data₁, st')) := by
        intro st'
        unfold rsi_generate
        rw [if_neg hg]
      have h2 : ∀ st' : StratState,
          rsi_generate period ob os data₁ st' =
            (match rsi_signal_core ob os data₁.closes (data₁.rsi.getD []) with
             | some sig =>
                 (some sig, data₁,
                  ⟨add_signal_history st'.signals_history sig, some sig⟩)
             | none => (none, data₁, st')) := by
        intro st'
        unfold rsi_generate
        rw [if_neg hg₁]
        rw [show (if data₁.rsi.isNone then
            { data₁ with rsi := some (calculate_rsi period data₁.closes) }
          else data₁) = data₁ from by simp [hnn]]
      rcases hsig : rsi_signal_core ob os data₁.closes (data₁.rsi.getD [])
        with _ | sig
      · simp only [h1, h2, hsig]
        exact ⟨hcl, trivial⟩
      · simp only [h1, h2, hsig]
        exact ⟨hcl, trivial⟩
  · intro f sl sg data st
    by_cases hg : data.closes = [] ∨ data.closes.length < max sl sg + 1
    · have h1 : ∀ st' : StratState,
          macd_generate f sl sg data st' = (none, data, st') := by
        intro st'
        unfold macd_generate
        rw [if_pos hg]
      simp only [h1]
      exact ⟨trivial, trivial⟩
    · set data₁ := if data.macd.isNone then
          { data with
            macd := some (calculate_macd f sl sg data.closes).1
            macd_signal := some (calculate_macd f sl sg data.closes).2.1
            macd_histogram := some (calculate_macd f sl sg data.closes).2.2 }
        else data with hd₁
      have hcl : data₁.closes = data.closes := by
        rw [hd₁]
        rcases data.macd <;> simp
      have hnn : data₁.macd.isNone = false := by
        rw [hd₁]
        rcases hr : data.macd <;> simp [hr]
      have hg₁ : ¬(data₁.closes = [] ∨
          data₁.closes.length < max sl sg + 1) := by
        rw [hcl]
        exact hg
      have h1 : ∀ st' : StratState,
          macd_generate f sl sg data st' =
            (match macd_signal_core data₁.closes (data₁.macd_signal.getD [])
                (data₁.macd_histogram.getD []) with
             | some sig =>
                 (some sig, data₁,
                  ⟨add_signal_history st'.signals_history sig, some sig⟩)
             | none => (none, data₁, st')) := by
        intro st'
        unfold macd_generate
        rw [if_neg hg]
      have h2 : ∀ st' : StratState,
          macd_generate f sl sg data₁ st' =
            (match macd_signal_core data₁.closes (data₁.macd_signal.getD [])
                (data₁.macd_histogram.getD []) with
             | some sig =>
                 (some sig, data₁,
                  ⟨add_signal_history st'.signals_history sig, some sig⟩)
             | none => (none, data₁, st')) := by
        intro st'
        unfold macd_generate
        rw [if_neg hg₁]
        rw [show (if data₁.macd.isNone then
            { data₁ with
              macd := some (calculate_macd f sl sg data₁.closes).1
              macd_signal := some (calculate_macd f sl sg data₁.closes).2.1
              macd_histogram := some (calculate_macd f sl sg data₁.closes).2.2 }
          else data₁) = data₁ from by simp [hnn]]
      rcases hsig : macd_signal_core data₁.closes (data₁.macd_signal.getD [])
          (data₁.macd_histogram.getD []) with _ | sig
      · simp only [h1, h2, hsig]
        exact ⟨hcl, trivial⟩
      · simp only [h1, h2, hsig]
        exact ⟨hcl, trivial⟩
  · intro h sig hlen
    simp only [add_signal_history]
    split_ifs with hlong
    · simp only [List.length_drop]
      omega
    · omega

/-- C9, witness: the bounded-history component at a concrete history. -/
theorem c9_generate_signal_effects_witness :
    (add_signal_history []
      { signal_type := "BUY", strength := 1, price := 1 }).length ≤ 1000 :=
  c9_generate_signal_effects.2.2.2 []
    { signal_type := "BUY", strength := 1, price := 1 } (by decide)

/-! ## Claim C10: PortfolioManager.update_position with an unknown side -/

/-- C10, confirmed: `PortfolioManager.update_position` called with a side that
is neither `'BUY'` nor `'SELL'` leaves the symbol's position values and the
available balance unchanged, still appends a trade record for the call, and
returns `True`. -/
theorem c10_unknown_side (pm : PortfolioManager) (symbol side : String)
    (quantity price : ℚ) (hb : side ≠ "BUY") (hs : side ≠ "SELL") :
    (pm.update_position symbol side quantity price).1 = true ∧
    (pm.update_position symbol side quantity price).2.available_balance =
      pm.available_balance ∧
    (pm.update_position symbol side quantity price).2.get_position symbol =
      pm.get_position symbol ∧
    (pm.update_position symbol side quantity price).2.trade_history =
      pm.trade_history ++
        [{ symbol := symbol, side := side, quantity := quantity, price := price
           total := quantity * price }] := by
  unfold PortfolioManager.update_position PortfolioManager.get_position
  rcases h : lookupA pm.positions symbol with _ | pos
  · simp [h, hb, hs, lookupD, lookupA_insertA_self]
  · simp [h, hb, hs, lookupD]

/-- C10, witness at a concrete portfolio and side `'HOLD'`. -/
theorem c10_unknown_side_witness :
    (PortfolioManager.update_position ⟨10000, 10000, [], []⟩ "BTCUSDT" "HOLD"
      1 5).1 = true ∧
    (PortfolioManager.update_position ⟨10000, 10000, [], []⟩ "BTCUSDT" "HOLD"
      1 5).2.available_balance = (10000 : ℚ) ∧
    (PortfolioManager.update_position ⟨10000, 10000, [], []⟩ "BTCUSDT" "HOLD"
      1 5).2.get_position "BTCUSDT" =
      PortfolioManager.get_position ⟨10000, 10000, [], []⟩ "BTCUSDT" ∧
    (PortfolioManager.update_position ⟨10000, 10000, [], []⟩ "BTCUSDT" "HOLD"
      1 5).2.trade_history =
      [{ symbol := "BTCUSDT", side := "HOLD", quantity := 1, price := 5
         total := 1 * 5 }] :=
  c10_unknown_side ⟨10000, 10000, [], []⟩ "BTCUSDT" "HOLD" 1 5
    (by decide) (by decide)

/-! ## Claim C3: overselling -/

/-- C3, counterexample: a SELL of 1 unit at price 5 exceeds the held quantity
(0), but its notional 5 is below `MIN_TRADE_AMOUNT = 10`, so `_risk_check`
fails at the **minimum-amount** check, which runs first — not at the
insufficient-position check. -/
theorem c3_min_amount_counterexample :
    (lookupA c3_s.positions "BTCUSDT").map Position.quantity = none ∧
    c3_s.risk_check "BTCUSDT" OrderSide.SELL 1 5 =
      some RiskError.minTradeAmount ∧
    c3_s.risk_check "BTCUSDT" OrderSide.SELL 1 5 ≠
      some RiskError.insufficientPosition := by
  norm_num +decide [c3_s, TradeExecutor.init, TradeExecutor.risk_check,
    lookupA, MIN_TRADE_AMOUNT]

/-- C3, amended: a SELL whose quantity exceeds the held quantity is rejected
with the insufficient-position failure *provided its notional meets the
minimum trade amount* (otherwise the minimum-amount check rejects it first);
in the executor, `place_order` for such a SELL returns no order id and leaves
the whole state unchanged; and `PortfolioManager.update_position` returns
`False` with balance, position values and trade history unchanged. -/
theorem c3_oversell_rejected :
    (∀ (s : TradeExecutor) (symbol : String) (quantity price : ℚ),
      ((lookupA s.positions symbol).map Position.quantity).getD 0 < quantity →
      MIN_TRADE_AMOUNT ≤ quantity * price →
      s.risk_check symbol OrderSide.SELL quantity price =
        some RiskError.insufficientPosition) ∧
    (∀ (s : TradeExecutor) (symbol : String) (order_type : OrderType)
      (quantity : ℚ) (price stop_price : Option ℚ),
      ((lookupA s.positions symbol).map Position.quantity).getD 0 < quantity →
      s.place_order symbol OrderSide.SELL order_type quantity price
        stop_price = (none, s)) ∧
    (∀ (pm : PortfolioManager) (symbol : String) (quantity price : ℚ),
      (pm.get_position symbol).quantity < quantity →
      (pm.update_position symbol "SELL" quantity price).1 = false ∧
      (pm.update_position symbol "SELL" quantity price).2.available_balance =
        pm.available_balance ∧
      (pm.update_position symbol "SELL" quantity price).2.get_position
        symbol = pm.get_position symbol ∧
      (pm.update_position symbol "SELL" quantity price).2.trade_history =
        pm.trade_history) := by
  have hrisk : ∀ (s : TradeExecutor) (symbol : String) (quantity price : ℚ),
      ((lookupA s.positions symbol).map Position.quantity).getD 0 < quantity →
      MIN_TRADE_AMOUNT ≤ quantity * price →
      s.risk_check symbol OrderSide.SELL quantity price =
        some RiskError.insufficientPosition := by
    intro s symbol quantity price hheld hmin
    unfold TradeExecutor.risk_check
    rw [if_neg (by linarith)]
    rcases h : lookupA s.positions symbol with _ | pos
    · simp only [h, Option.map_none', Option.getD_none] at hheld
      simp [h, hheld]
    · simp only [h, Option.map_some', Option.getD_some] at hheld
      simp [h, hheld]
  have hsome : ∀ (s : TradeExecutor) (symbol : String) (quantity price : ℚ),
      ((lookupA s.positions symbol).map Position.quantity).getD 0 < quantity →
      (s.risk_check symbol OrderSide.SELL quantity price).isSome = true := by
    intro s symbol quantity price hheld
    rcases h : lookupA s.positions symbol with _ | pos
    · simp only [h, Option.map_none', Option.getD_none] at hheld
      simp only [TradeExecutor.risk_check, h, hheld, if_true]
      split_ifs <;> rfl
    · simp only [h, Option.map_some', Option.getD_some] at hheld
      simp only [TradeExecutor.risk_check, h, hheld, if_true]
      split_ifs <;> rfl
  refine ⟨hrisk, ?_, ?_⟩
  · intro s symbol order_type quantity price stop_price hheld
    unfold TradeExecutor.place_order
    split_ifs with h1 hmkt
    · rfl
    · rcases hcp : lookupA s.current_prices symbol with _ | cp
      · rfl
      · simp [hsome s symbol quantity cp hheld]
    · rcases hcp : lookupA s.current_prices symbol with _ | cp
      · rfl
      · rcases price with _ | p0
        · rfl
        · simp [hsome s symbol quantity p0 hheld]
  · intro pm symbol quantity price hq
    unfold PortfolioManager.update_position PortfolioManager.get_position
    rcases h : lookupA pm.positions symbol with _ | pos
    · have hq' : ¬((0 : ℚ) ≥ quantity) := by
        simp only [PortfolioManager.get_position, lookupD, h,
          Option.getD_none] at hq
        exact not_le.mpr hq
      simp [h, lookupD, lookupA_insertA_self, hq']
    · have hq' : ¬(pos.quantity ≥ quantity) := by
        simp only [PortfolioManager.get_position, lookupD, h,
          Option.getD_some] at hq
        exact not_le.mpr hq
      simp [h, lookupD, hq']

/-- C3, witness: concrete instances of all three components of the amended
theorem (fresh executor and portfolio, SELL 1 @ 50 with nothing held). -/

theorem c3_oversell_rejected_witness :
    (TradeExecutor.init 10000).risk_check "BTCUSDT" OrderSide.SELL 1 50 =
      some RiskError.insufficientPosition ∧
    (TradeExecutor.init 10000).place_order "BTCUSDT" OrderSide.SELL
      OrderType.MARKET 1 none none = (none, TradeExecutor.init 10000) ∧
    (PortfolioManager.update_position ⟨10000, 10000, [], []⟩ "BTCUSDT" "SELL"
      1 50).1 = false :=
  ⟨c3_oversell_rejected.1 (TradeExecutor.init 10000) "BTCUSDT" 1 50
      (by norm_num [TradeExecutor.init, lookupA])
      (by norm_num [MIN_TRADE_AMOUNT]),
   c3_oversell_rejected.2.1 (TradeExecutor.init 10000) "BTCUSDT"
      OrderType.MARKET 1 none none
      (by norm_num [TradeExecutor.init, lookupA]),
   (c3_oversell_rejected.2.2 ⟨10000, 10000, [], []⟩ "BTCUSDT" 1 50
      (by norm_num [PortfolioManager.get_position, lookupD, lookupA])).1⟩

/-! ## Claim C6, amended part -/

/-- C6, amended: `RiskManager.can_trade` rejects a BUY (with truthy quantity
and price) whenever its notional exceeds
`maxPositionFraction × INITIAL_BALANCE` — the position-limit check substitutes
the constant initial balance for the current total equity.  `can_trade` is a
pure read of the risk state (the source method assigns no attribute), so a
rejection mutates nothing. -/
theorem c6_position_limit_rejects (rm : RiskManager) (today : ℕ)
    (symbol : String) (q p : ℚ) (hq : q ≠ 0) (hp : p ≠ 0)
    (hgt : q * p > INITIAL_BALANCE * rm.max_position_size) :
    rm.can_trade today symbol "BUY" (some q) (some p) = false := by
  have hlim : rm.check_position_limit symbol (q * p) = false := by
    unfold RiskManager.check_position_limit
    rw [if_pos (by linarith)]
  simp only [RiskManager.can_trade, hlim, if_false]
  split_ifs with h1 h2 h3 h4
  · rfl
  · rfl
  · exact h4.elim
  · rfl
  · exact absurd ⟨trivial, hq, hp⟩ h3

/-- C6, witness: the configured risk manager rejects a BUY of notional
6000 > 0.5 × 10000. -/
theorem c6_position_limit_rejects_witness :
    RiskManager.init.can_trade 0 "BTCUSDT" "BUY" (some 1) (some 6000) =
      false :=
  c6_position_limit_rejects RiskManager.init 0 "BTCUSDT" 1 6000
    (by norm_num) (by norm_num)
    (by norm_num [RiskManager.init, INITIAL_BALANCE, MAX_POSITION_SIZE])

/-! ## Claim C4: zero-cost round trip -/

/-- C4, confirmed: with zero slippage and zero commission, from any state with
no prior position in the symbol, a BUY fill of `q` at `p` followed by a SELL
fill of `q` at `p` restores `availableBalance` exactly and leaves the
position's `realizedPnL` at 0. -/
theorem c4_round_trip (s : TradeExecutor) (symbol : String) (q p : ℚ)
    (hpos : lookupA s.positions symbol = none)
    (hslip : s.slippage = 0) (hcomm : s.commission_rate = 0) :
    (((s.execute_order
        (Order.mk' s.next_id symbol OrderSide.BUY OrderType.MARKET q
          (some p) none) p).execute_order
        (Order.mk' (s.next_id + 1) symbol OrderSide.SELL OrderType.MARKET q
          (some p) none) p).available_balance = s.available_balance) ∧
    ((lookupA ((s.execute_order
        (Order.mk' s.next_id symbol OrderSide.BUY OrderType.MARKET q
          (some p) none) p).execute_order
        (Order.mk' (s.next_id + 1) symbol OrderSide.SELL OrderType.MARKET q
          (some p) none) p).positions symbol).map Position.realized_pnl =
      some 0) := by
  by_cases hq : (0:ℚ) < q
  · have hq0 : q ≠ 0 := ne_of_gt hq
    constructor
    · simp [TradeExecutor.execute_order, TradeExecutor.update_balance_and_position,
        Position.update_position, Position.init, Order.mk', Trade.mk',
        lookupA_insertA_self, lookupD, hpos, hslip, hcomm, hq, hq0,
        mul_div_cancel_left₀]
    · simp [TradeExecutor.execute_order, TradeExecutor.update_balance_and_position,
        Position.update_position, Position.init, Order.mk', Trade.mk',
        lookupA_insertA_self, lookupD, hpos, hslip, hcomm, hq, hq0,
        mul_div_cancel_left₀]
  · constructor
    · simp [TradeExecutor.execute_order, TradeExecutor.update_balance_and_position,
        Position.update_position, Position.init, Order.mk', Trade.mk',
        lookupA_insertA_self, lookupD, hpos, hslip, hcomm, hq]
    · simp [TradeExecutor.execute_order, TradeExecutor.update_balance_and_position,
        Position.update_position, Position.init, Order.mk', Trade.mk',
        lookupA_insertA_self, lookupD, hpos, hslip, hcomm, hq]

/-- C4, witness: round trip of 1 unit at price 20 from a fresh zero-cost
executor. -/
theorem c4_round_trip_witness :
    ((({ TradeExecutor.init 100 with slippage := 0, commission_rate := 0
        } : TradeExecutor).execute_order
        (Order.mk' 0 "X" OrderSide.BUY OrderType.MARKET 1 (some 20) none)
        20).execute_order
        (Order.mk' 1 "X" OrderSide.SELL OrderType.MARKET 1 (some 20) none)
        20).available_balance = (100 : ℚ) :=
  have h := c4_round_trip
    ({ TradeExecutor.init 100 with slippage := 0, commission_rate := 0 })
    "X" 1 20 (by norm_num [TradeExecutor.init, lookupA]) rfl rfl
  by simpa [TradeExecutor.init] using h.1

end Bot
